import Mathlib

/-!
Verification of the rendezvous-server core (src/main.rs) via a shallow
embedding. Paths are component lists, the filesystem is a map from paths to
file entries (content plus a readability flag modelling permission errors),
and the async functions of the source become pure state-passing functions.
-/

namespace RendezvousServer

/-- A filesystem path, as its list of components (`PathBuf`). -/
abbrev Path := List String

/-- `Path::display()`: components joined with a slash. -/
def pathDisplay (p : Path) : String := String.intercalate "/" p

/-- A file on disk: its byte content, and whether reading it succeeds
(`readable = false` models a permission error on an existing file). -/
structure FileEntry where
  content : List Nat
  readable : Bool
deriving DecidableEq, Repr

/-- The filesystem state: files by path, plus the set of directories. -/
structure FS where
  files : Path → Option FileEntry
  dirs : Path → Bool

/-- Reasons a `tokio::fs::read` can fail in the model. -/
inductive IoErr where
  | notFound
  | permissionDenied
deriving DecidableEq, Repr

/-- `tokio::fs::read`: fails with `notFound` when the file is absent and with
`permissionDenied` when it exists but is not readable. -/
def fsRead (fs : FS) (p : Path) : Except IoErr (List Nat) :=
  match fs.files p with
  | none => .error .notFound
  | some f => if f.readable then .ok f.content else .error .permissionDenied

/-- `ed25519::SecretKey::from_bytes` accepts exactly 32-byte inputs
(`ed25519_dalek` checks only the length); the key material is the raw bytes. -/
def secretKeyFromBytes (bytes : List Nat) : Except Unit (List Nat) :=
  if bytes.length = 32 then .ok bytes else .error ()

/-- Errors of `load_secret_key_from_file`, with the `with_context` message
attached to the read failure. -/
inductive KeyLoadErr where
  | noSecretFile (path : Path) (cause : IoErr)
  | invalidKeyBytes
deriving DecidableEq, Repr

/-- The user-visible message of a key-loading error. The
`format!("No secret file at {}", path.display())` context is attached to any
failure of `fs::read`, whatever its cause. -/
def keyLoadErrMessage : KeyLoadErr → String
  | .noSecretFile p _ => "No secret file at " ++ pathDisplay p
  | .invalidKeyBytes => "invalid secret key bytes"

/-- `load_secret_key_from_file`: read the raw bytes at `path` (attaching the
no-secret-file context to any read error), then decode them as an ed25519
secret key. -/
def load_secret_key_from_file (fs : FS) (path : Path) : Except KeyLoadErr (List Nat) :=
  match fsRead fs path with
  | .error e => .error (.noSecretFile path e)
  | .ok bytes =>
    match secretKeyFromBytes bytes with
    | .error _ => .error .invalidKeyBytes
    | .ok secret_key => .ok secret_key

/-- Errors of `write_secret_key_to_file`. -/
inductive KeyWriteErr where
  | dirCreateFailed (parent : Path)
  | fileExists (path : Path)
deriving DecidableEq, Repr

/-- `path.parent()`: drop the last component; `none` for the empty path. -/
def pathParent (p : Path) : Option Path :=
  match p with
  | [] => none
  | _ => some p.dropLast

/-- `DirBuilder::new().recursive(true).create(parent)` in the model: creating
a directory chain fails exactly when some ancestor path is occupied by a file;
otherwise all ancestors become directories. -/
def dirCreateRecursive (fs : FS) (parent : Path) : Except KeyWriteErr FS :=
  if parent.inits.any (fun q => (fs.files q).isSome) then
    .error (.dirCreateFailed parent)
  else
    .ok { fs with dirs := fun d => fs.dirs d || parent.inits.contains d }

/-- `OpenOptions::new().write(true).create_new(true)` followed by
`write_all`: refuses to touch an existing file, otherwise creates the file
holding exactly the raw secret bytes. -/
def openCreateNewAndWrite (fs : FS) (secret_key : List Nat) (path : Path) :
    Except KeyWriteErr Unit × FS :=
  match fs.files path with
  | some _ => (.error (.fileExists path), fs)
  | none =>
    (.ok (), { fs with
      files := fun q => if q = path then some ⟨secret_key, true⟩ else fs.files q })

/-- `write_secret_key_to_file`: create the parent directories recursively,
then open the file with `create_new(true)` — which fails if the file already
exists — and write the raw secret bytes. Returns the outcome together with
the resulting filesystem state. -/
def write_secret_key_to_file (fs : FS) (secret_key : List Nat) (path : Path) :
    Except KeyWriteErr Unit × FS :=
  match pathParent path with
  | none => openCreateNewAndWrite fs secret_key path
  | some parent =>
    match dirCreateRecursive fs parent with
    | .error e => (.error e, fs)
    | .ok fs1 => openCreateNewAndWrite fs1 secret_key path

/-- The TLS material built by `tls::Config::new(private_key, certificates)`:
one private key and a list of certificates (the source passes a one-element
vector). The rustls-level parsing of the bytes stays abstract: the functions
below are parametric in the constructor `tlsNew`. -/
structure TlsConfig where
  privateKey : List Nat
  certificates : List (List Nat)
deriving DecidableEq, Repr

/-- Errors of `tls_config_from_params`. -/
inductive TlsErr where
  | incompleteTlsConfig
  | io (e : IoErr)
  | configNew
deriving DecidableEq, Repr

/-- Output of `tls_config_from_params`, instrumented with the effects the
function performs: the list of file reads it issued (in order) and whether it
emitted the unused-SSL-parameters warning. -/
structure TlsLoadOut where
  result : Except TlsErr (Option TlsConfig)
  reads : List Path
  warned : Bool
deriving Repr

/-- `tls_config_from_params`: four-way case analysis on the two optional
paths and the websocket flag, reading the two files only in the last case.
`tlsNew` abstracts `tls::Config::new` (rustls parsing of the bytes, which may
fail); `PrivateKey::new` and `Certificate::new` are plain wrappers. -/
def tls_config_from_params (tlsNew : List Nat → List (List Nat) → Except Unit TlsConfig)
    (fs : FS) (private_key : Option Path) (certificate : Option Path)
    (websocket : Bool) : TlsLoadOut :=
  match private_key, certificate with
  | none, none => ⟨.ok none, [], false⟩
  | some pk, some cert =>
    if !websocket then ⟨.ok none, [], true⟩
    else
      match fsRead fs pk with
      | .error e => ⟨.error (.io e), [pk], false⟩
      | .ok pkBytes =>
        match fsRead fs cert with
        | .error e => ⟨.error (.io e), [pk, cert], false⟩
        | .ok certBytes =>
          match tlsNew pkBytes [certBytes] with
          | .error _ => ⟨.error .configNew, [pk, cert], false⟩
          | .ok tls_config => ⟨.ok (some tls_config), [pk, cert], false⟩
  | _, _ => ⟨.error .incompleteTlsConfig, [], false⟩

/-- `tracing::level_filters::LevelFilter`. -/
inductive Level where
  | off
  | err
  | warn
  | info
  | debug
  | trce
deriving DecidableEq, Repr

/-- Rendering of a level inside the env-filter string. -/
def levelStr : Level → String
  | .off => "off"
  | .err => "ERROR"
  | .warn => "WARN"
  | .info => "INFO"
  | .debug => "DEBUG"
  | .trce => "TRACE"

/-- The configuration of the `FmtSubscriber` that `init_tracing` installs. -/
structure SubscriberConfig where
  envFilter : String
  ansi : Bool
  timerFormat : String
  withTarget : Bool
  json : Bool
  withTime : Bool
deriving DecidableEq, Repr

/-- `init_tracing`: returns the installed subscriber configuration, or `none`
when the level is `OFF` (the early return installs nothing). The builder sets
the env filter, writer, ansi, timer and target; then: `json` flag → install
the JSON formatter and return; otherwise `no_timestamp` → drop the timer and
return; otherwise install the builder as is. -/
def init_tracing (level : Level) (isTerminal : Bool) (json_format : Bool)
    (no_timestamp : Bool) : Option SubscriberConfig :=
  if level = .off then none
  else
    let builder : SubscriberConfig :=
      { envFilter := "rendezvous_server=" ++ levelStr level
        ansi := isTerminal
        timerFormat := "%F %T"
        withTarget := false
        json := false
        withTime := true }
    if json_format then some { builder with json := true }
    else if no_timestamp then some { builder with withTime := false }
    else some builder

/-- The node's identity keypair, identified by its ed25519 secret bytes. -/
abbrev Keypair := List Nat

/-- `libp2p::core::upgrade::Version` as used by the source. -/
inductive UpgradeVersion where
  | v1
deriving DecidableEq, Repr

/-- The two stream multiplexers offered by the source. -/
inductive Muxer where
  | yamux
  | mplex
deriving DecidableEq, Repr

/-- The authentication upgrade built by the source:
`NoiseConfig::xx(noise_keypair.into_authentic(identity)).into_authenticated()`,
a Noise XX handshake bound to the long-term identity keypair. -/
inductive AuthUpgrade where
  | noiseXX (identity : Keypair)
deriving DecidableEq, Repr

/-- Syntax of the transport stack the builder assembles. Base layers: TCP
(with its nodelay flag), the DNS wrapper, the WebSocket wrapper (carrying its
optional TLS config), and the either-or combination of two transports. Upgrade
layers: version negotiation, authentication, multiplexer selection (preferred
then fallback of a `SelectUpgrade`), the timeout wrapper, and the final map to
`(PeerId, StreamMuxerBox)`. Boxing erases types only and is not represented. -/
inductive TransportDesc where
  | tcp (nodelay : Bool)
  | dns (inner : TransportDesc)
  | ws (inner : TransportDesc) (tlsConfig : Option TlsConfig)
  | orTransport (first second : TransportDesc)
  | upgradeV (v : UpgradeVersion) (inner : TransportDesc)
  | authenticate (a : AuthUpgrade) (inner : TransportDesc)
  | multiplex (preferred fallback : Muxer) (inner : TransportDesc)
  | timeoutSecs (secs : Nat) (inner : TransportDesc)
  | mapPeerMuxer (inner : TransportDesc)
deriving DecidableEq, Repr

/-- `authenticate_and_multiplex`: upgrade the given transport with version
negotiation, the authenticated Noise XX handshake, Yamux-preferred/Mplex-
fallback multiplexer selection, a 20-second timeout, and the final map.
`noise::Keypair::new().into_authentic(identity)` signs the fresh Noise static
key with the ed25519 identity, which cannot fail, so the model always
returns `ok`. -/
def authenticate_and_multiplex (transport : TransportDesc) (identity : Keypair) :
    Except Unit TransportDesc :=
  let auth_upgrade := AuthUpgrade.noiseXX identity
  .ok (.mapPeerMuxer (.timeoutSecs 20
    (.multiplex .yamux .mplex (.authenticate auth_upgrade (.upgradeV .v1 transport)))))

/-- `create_transport`: build TCP-with-DNS (nodelay on); when websocket is
enabled, wrap a clone of it in a WebSocket layer (setting the TLS config on
it exactly when material is present) and combine the two as alternatives via
`or_transport`; then apply `authenticate_and_multiplex`. The source unwraps
the inner `Result`, which never errs; the model mirrors that with a dead
default branch. -/
def create_transport (identity : Keypair) (websocket : Bool)
    (tls : Option TlsConfig) : TransportDesc :=
  let tcp_with_dns := TransportDesc.dns (.tcp true)
  if websocket then
    let websocket_with_dns :=
      match tls with
      | some t => TransportDesc.ws tcp_with_dns (some t)
      | none => TransportDesc.ws tcp_with_dns none
    match authenticate_and_multiplex (.orTransport tcp_with_dns websocket_with_dns) identity with
    | .ok t => t
    | .error _ => tcp_with_dns
  else
    match authenticate_and_multiplex tcp_with_dns identity with
    | .ok t => t
    | .error _ => tcp_with_dns

/-- One upgrade layer, for reading the chain off a transport description. -/
inductive Layer where
  | versionNeg (v : UpgradeVersion)
  | auth (a : AuthUpgrade)
  | mux (preferred fallback : Muxer)
  | timeoutL (secs : Nat)
  | mapOut
deriving DecidableEq, Repr

/-- The upgrade layers applied on top of the base transport, innermost
first. -/
def upgradeLayers : TransportDesc → List Layer
  | .upgradeV v t => upgradeLayers t ++ [.versionNeg v]
  | .authenticate a t => upgradeLayers t ++ [.auth a]
  | .multiplex p f t => upgradeLayers t ++ [.mux p f]
  | .timeoutSecs s t => upgradeLayers t ++ [.timeoutL s]
  | .mapPeerMuxer t => upgradeLayers t ++ [.mapOut]
  | _ => []

/-- The base (raw) transport under all upgrade layers. -/
def baseOf : TransportDesc → TransportDesc
  | .upgradeV _ t => baseOf t
  | .authenticate _ t => baseOf t
  | .multiplex _ _ t => baseOf t
  | .timeoutSecs _ t => baseOf t
  | .mapPeerMuxer t => baseOf t
  | t => t

/-- What one connection attempt looks like from this node: which upgrade
version the remote speaks, the peer identity the Noise handshake would yield
(`none` for a failed handshake), the multiplexers the remote supports, and
how many seconds the whole upgrade takes. -/
structure RemoteAttempt where
  supportsV1 : Bool
  noisePeer : Option Nat
  muxers : List Muxer
  upgradeSeconds : Nat
deriving DecidableEq, Repr

/-- Failures of a single connection upgrade. -/
inductive UpgradeErr where
  | versionMismatch
  | handshakeFailed
  | noCommonMuxer
  | timedOut
  | notApplicable
deriving DecidableEq, Repr

/-- The state a connection reaches as the layers apply. -/
inductive Outcome where
  | raw
  | negotiated
  | authenticated (peer : Nat)
  | upgraded (peer : Nat) (m : Muxer)
deriving DecidableEq, Repr

/-- `SelectUpgrade` semantics: the preferred protocol wins when the remote
supports it, otherwise the fallback, otherwise negotiation fails. -/
def negotiateMuxer (preferred fallback : Muxer) (remote : List Muxer) : Option Muxer :=
  if remote.contains preferred then some preferred
  else if remote.contains fallback then some fallback
  else none

/-- Per-connection semantics of a transport description: how one attempt
proceeds through the layers. The timeout layer fires — aborting the attempt
with a timeout error — whenever the upgrade takes longer than its budget,
regardless of what the inner layers would produce. -/
def runUpgrade (r : RemoteAttempt) : TransportDesc → Except UpgradeErr Outcome
  | .upgradeV .v1 t =>
    match runUpgrade r t with
    | .error e => .error e
    | .ok .raw => if r.supportsV1 then .ok .negotiated else .error .versionMismatch
    | .ok _ => .error .notApplicable
  | .authenticate (.noiseXX _) t =>
    match runUpgrade r t with
    | .error e => .error e
    | .ok .negotiated =>
      match r.noisePeer with
      | some p => .ok (.authenticated p)
      | none => .error .handshakeFailed
    | .ok _ => .error .notApplicable
  | .multiplex pref fall t =>
    match runUpgrade r t with
    | .error e => .error e
    | .ok (.authenticated p) =>
      match negotiateMuxer pref fall r.muxers with
      | some m => .ok (.upgraded p m)
      | none => .error .noCommonMuxer
    | .ok _ => .error .notApplicable
  | .timeoutSecs s t =>
    if s < r.upgradeSeconds then .error .timedOut else runUpgrade r t
  | .mapPeerMuxer t => runUpgrade r t
  | _ => .ok .raw

/-- A multiaddress, by its textual rendering (`Multiaddr::to_string`). -/
abbrev Multiaddr := String

/-- A peer identity, by its textual rendering. -/
abbrev PeerId := String

/-- A rendezvous `PeerRecord`: the owning peer and its addresses. -/
structure PeerRecord where
  peerId : PeerId
  addresses : List Multiaddr
deriving DecidableEq, Repr

/-- A rendezvous `Registration`: namespace, signed record, and TTL in
seconds (`nspace` stands for the source's `namespace` field, a Lean
keyword). -/
structure Registration where
  nspace : String
  record : PeerRecord
  ttl : Nat
deriving DecidableEq, Repr

/-- The `Addresses` display wrapper: the addresses rendered with
`Multiaddr::to_string` (the identity on this model) and joined with a
comma. -/
def addressesDisplay (addrs : List Multiaddr) : String :=
  String.intercalate "," (addrs.map (fun addr => addr))

/-- The rendezvous events the loop matches on (`..` variants collapsed to the
fields the source reads; every other variant is `other`). -/
inductive RendezvousEvent where
  | peerRegistered (peer : PeerId) (registration : Registration)
  | peerNotRegistered (peer : PeerId) (nspace : String) (err : String)
  | registrationExpired (registration : Registration)
  | peerUnregistered (peer : PeerId) (nspace : String)
  | discoverServed (enquirer : PeerId)
  | other
deriving DecidableEq, Repr

/-- The aggregate behaviour's out-event. -/
inductive Event where
  | rendezvous (e : RendezvousEvent)
  | ping
deriving DecidableEq, Repr

/-- The swarm events the loop matches on. -/
inductive SwarmEvent where
  | behaviour (e : Event)
  | newListenAddr (address : Multiaddr)
  | other
deriving DecidableEq, Repr

/-- One structured log line of the event loop, with the fields the source
attaches to it. The `addresses` field of `registrationExpired` is the single
string produced by the `Addresses` display wrapper; `peerRegistered` logs the
address list with the debug formatter instead. -/
inductive LogEntry where
  | peerRegistered (peer : PeerId) (nspace : String) (addresses : List Multiaddr) (ttl : Nat)
  | peerFailedToRegister (peer : PeerId) (nspace : String) (err : String)
  | registrationExpired (peer : PeerId) (nspace : String) (addresses : String) (ttl : Nat)
  | peerUnregistered (peer : PeerId) (nspace : String)
  | discoveryServed (peer : PeerId)
  | newListeningAddress (address : Multiaddr)
deriving DecidableEq, Repr

/-- One iteration of the event loop's dispatch `match`: which log entry a
swarm event produces, `none` for the ignored catch-all arm. -/
def handleSwarmEvent : SwarmEvent → Option LogEntry
  | .behaviour (.rendezvous (.peerRegistered peer registration)) =>
    some (.peerRegistered peer registration.nspace registration.record.addresses
      registration.ttl)
  | .behaviour (.rendezvous (.peerNotRegistered peer nspace err)) =>
    some (.peerFailedToRegister peer nspace err)
  | .behaviour (.rendezvous (.registrationExpired registration)) =>
    some (.registrationExpired registration.record.peerId registration.nspace
      (addressesDisplay registration.record.addresses) registration.ttl)
  | .behaviour (.rendezvous (.peerUnregistered peer nspace)) =>
    some (.peerUnregistered peer nspace)
  | .behaviour (.rendezvous (.discoverServed enquirer)) =>
    some (.discoveryServed enquirer)
  | .newListenAddr address => some (.newListeningAddress address)
  | _ => none

/-! ## Helper lemmas -/

/-- Opening with `create_new` on an occupied path fails and leaves the
filesystem untouched. -/
lemma openCreateNewAndWrite_existing (fs : FS) (k : List Nat) (p : Path)
    (entry : FileEntry) (h : fs.files p = some entry) :
    openCreateNewAndWrite fs k p = (.error (.fileExists p), fs) := by
  unfold openCreateNewAndWrite
  simp [h]

/-- Opening with `create_new` on a fresh path creates the file with exactly
the written bytes. -/
lemma openCreateNewAndWrite_fresh (fs : FS) (k : List Nat) (p : Path)
    (h : fs.files p = none) :
    openCreateNewAndWrite fs k p =
      (.ok (), { fs with files := fun q => if q = p then some ⟨k, true⟩ else fs.files q }) := by
  unfold openCreateNewAndWrite
  simp [h]

/-- Recursive directory creation never changes the file contents. -/
lemma dirCreateRecursive_files (fs fs1 : FS) (parent : Path)
    (h : dirCreateRecursive fs parent = .ok fs1) : fs1.files = fs.files := by
  unfold dirCreateRecursive at h
  split at h
  · cases h
  · injection h with h1
    subst h1
    rfl

/-- Equation: writing under a parentless path goes straight to the open. -/
lemma write_secret_key_eq_of_no_parent (fs : FS) (k : List Nat) (p : Path)
    (h : pathParent p = none) :
    write_secret_key_to_file fs k p = openCreateNewAndWrite fs k p := by
  unfold write_secret_key_to_file
  rw [h]

/-- Equation: a directory-creation failure is returned, filesystem intact. -/
lemma write_secret_key_eq_of_dir_fail (fs : FS) (k : List Nat) (p parent : Path)
    (e : KeyWriteErr) (h : pathParent p = some parent)
    (hd : dirCreateRecursive fs parent = .error e) :
    write_secret_key_to_file fs k p = (.error e, fs) := by
  unfold write_secret_key_to_file
  rw [h]
  simp [hd]

/-- Equation: after directory creation succeeds, the open runs on the updated
filesystem. -/
lemma write_secret_key_eq_of_dir_ok (fs fs1 : FS) (k : List Nat) (p parent : Path)
    (h : pathParent p = some parent) (hd : dirCreateRecursive fs parent = .ok fs1) :
    write_secret_key_to_file fs k p = openCreateNewAndWrite fs1 k p := by
  unfold write_secret_key_to_file
  rw [h]
  simp [hd]

/-- Loading right after a fresh write of a 32-byte key returns the key. -/
lemma load_after_fresh_write (fs : FS) (k : List Nat) (p : Path)
    (hlen : k.length = 32) :
    load_secret_key_from_file
      { fs with files := fun q => if q = p then some ⟨k, true⟩ else fs.files q } p =
      .ok k := by
  unfold load_secret_key_from_file fsRead secretKeyFromBytes
  simp [hlen]

/-! ## Theorems -/

/-- C3: for every path at which a file already exists, writing a generated
secret key to that path fails (no overwrite), and the pre-existing file's
contents are identical before and after the failed call. -/
theorem c3_write_never_overwrites (fs : FS) (secret_key : List Nat) (path : Path)
    (entry : FileEntry) (h : fs.files path = some entry) :
    (∃ e, (write_secret_key_to_file fs secret_key path).1 = .error e) ∧
    (write_secret_key_to_file fs secret_key path).2.files path = some entry := by
  cases hp : pathParent path with
  | none =>
    rw [write_secret_key_eq_of_no_parent fs secret_key path hp,
      openCreateNewAndWrite_existing fs secret_key path entry h]
    exact ⟨⟨_, rfl⟩, h⟩
  | some parent =>
    cases hd : dirCreateRecursive fs parent with
    | error e =>
      rw [write_secret_key_eq_of_dir_fail fs secret_key path parent e hp hd]
      exact ⟨⟨e, rfl⟩, h⟩
    | ok fs1 =>
      have hf : fs1.files path = some entry := by
        rw [dirCreateRecursive_files fs fs1 parent hd]
        exact h
      rw [write_secret_key_eq_of_dir_ok fs fs1 secret_key path parent hp hd,
        openCreateNewAndWrite_existing fs1 secret_key path entry hf]
      exact ⟨⟨_, rfl⟩, hf⟩

/-- C3 witness: a concrete filesystem with a file at the target path. -/
theorem c3_write_never_overwrites_witness :
    (FS.mk (fun q => if q = ["k"] then some ⟨[9], true⟩ else none) (fun _ => false)).files
        ["k"] = some ⟨[9], true⟩ ∧
    ((∃ e, (write_secret_key_to_file
        (FS.mk (fun q => if q = ["k"] then some ⟨[9], true⟩ else none) (fun _ => false))
        (List.replicate 32 1) ["k"]).1 = .error e) ∧
      (write_secret_key_to_file
        (FS.mk (fun q => if q = ["k"] then some ⟨[9], true⟩ else none) (fun _ => false))
        (List.replicate 32 1) ["k"]).2.files ["k"] = some ⟨[9], true⟩) :=
  ⟨by simp, c3_write_never_overwrites _ _ _ _ (by simp)⟩

/-- C4: whenever writing a generated (32-byte) secret key succeeds, loading
from the same path on the resulting filesystem succeeds and returns
byte-identical key material — the file holds exactly the raw secret bytes. -/
theorem c4_write_load_roundtrip (fs : FS) (secret_key : List Nat) (path : Path)
    (hlen : secret_key.length = 32)
    (hok : (write_secret_key_to_file fs secret_key path).1 = .ok ()) :
    load_secret_key_from_file (write_secret_key_to_file fs secret_key path).2 path =
      .ok secret_key := by
  cases hp : pathParent path with
  | none =>
    cases hf : fs.files path with
    | some entry =>
      rw [write_secret_key_eq_of_no_parent fs secret_key path hp,
        openCreateNewAndWrite_existing fs secret_key path entry hf] at hok
      cases hok
    | none =>
      rw [write_secret_key_eq_of_no_parent fs secret_key path hp,
        openCreateNewAndWrite_fresh fs secret_key path hf]
      exact load_after_fresh_write fs secret_key path hlen
  | some parent =>
    cases hd : dirCreateRecursive fs parent with
    | error e =>
      rw [write_secret_key_eq_of_dir_fail fs secret_key path parent e hp hd] at hok
      cases hok
    | ok fs1 =>
      cases hf : fs1.files path with
      | some entry =>
        rw [write_secret_key_eq_of_dir_ok fs fs1 secret_key path parent hp hd,
          openCreateNewAndWrite_existing fs1 secret_key path entry hf] at hok
        cases hok
      | none =>
        rw [write_secret_key_eq_of_dir_ok fs fs1 secret_key path parent hp hd,
          openCreateNewAndWrite_fresh fs1 secret_key path hf]
        exact load_after_fresh_write fs1 secret_key path hlen

/-- C4 witness: writing a concrete 32-byte key to a fresh path, then loading
it back. -/
theorem c4_write_load_roundtrip_witness :
    (List.replicate 32 7).length = 32 ∧
    (write_secret_key_to_file (FS.mk (fun _ => none) (fun _ => false))
        (List.replicate 32 7) ["dir", "key"]).1 = .ok () ∧
    load_secret_key_from_file
        (write_secret_key_to_file (FS.mk (fun _ => none) (fun _ => false))
          (List.replicate 32 7) ["dir", "key"]).2 ["dir", "key"] =
      .ok (List.replicate 32 7) :=
  ⟨by simp,
   by simp [write_secret_key_to_file, pathParent, dirCreateRecursive, openCreateNewAndWrite],
   c4_write_load_roundtrip _ _ _ (by simp)
     (by simp [write_secret_key_to_file, pathParent, dirCreateRecursive, openCreateNewAndWrite])⟩

/-- C7: in load mode, for every path at which no file exists, loading fails
with an error whose message names that path; for every readable file whose
bytes are not a valid 32-byte secret scalar, loading fails with the
invalid-key-bytes error. -/
theorem c7_load_error_cases :
    (∀ (fs : FS) (p : Path), fs.files p = none →
      load_secret_key_from_file fs p = .error (.noSecretFile p .notFound) ∧
      keyLoadErrMessage (.noSecretFile p .notFound) =
        "No secret file at " ++ pathDisplay p) ∧
    (∀ (fs : FS) (p : Path) (f : FileEntry), fs.files p = some f →
      f.readable = true → f.content.length ≠ 32 →
      load_secret_key_from_file fs p = .error .invalidKeyBytes) := by
  constructor
  · intro fs p h
    refine ⟨?_, rfl⟩
    unfold load_secret_key_from_file fsRead
    simp [h]
  · intro fs p f hf hr hlen
    unfold load_secret_key_from_file fsRead secretKeyFromBytes
    simp [hf, hr, hlen]

/-- C7 witness: an empty filesystem for the missing-file case, and a one-byte
key file for the invalid-bytes case. -/
theorem c7_load_error_cases_witness :
    ((FS.mk (fun _ => none) (fun _ => false)).files ["k"] = none ∧
      load_secret_key_from_file (FS.mk (fun _ => none) (fun _ => false)) ["k"] =
        .error (.noSecretFile ["k"] .notFound)) ∧
    ((FS.mk (fun q => if q = ["k"] then some ⟨[0], true⟩ else none)
        (fun _ => false)).files ["k"] = some ⟨[0], true⟩ ∧
      load_secret_key_from_file
        (FS.mk (fun q => if q = ["k"] then some ⟨[0], true⟩ else none)
          (fun _ => false)) ["k"] = .error .invalidKeyBytes) :=
  ⟨⟨rfl, (c7_load_error_cases.1 _ ["k"] rfl).1⟩,
   ⟨by simp, c7_load_error_cases.2 _ ["k"] ⟨[0], true⟩ (by simp) rfl (by simp)⟩⟩

/-- C8: the no-secret-file context is attached to every read failure, not
only absence: when the file exists but is unreadable, the error message still
claims there is no secret file at that path. -/
theorem c8_unreadable_file_message (fs : FS) (p : Path) (f : FileEntry)
    (hf : fs.files p = some f) (hr : f.readable = false) :
    load_secret_key_from_file fs p = .error (.noSecretFile p .permissionDenied) ∧
    keyLoadErrMessage (.noSecretFile p .permissionDenied) =
      "No secret file at " ++ pathDisplay p := by
  refine ⟨?_, rfl⟩
  unfold load_secret_key_from_file fsRead
  simp [hf, hr]

/-- C8 witness: a filesystem holding an existing but unreadable key file. -/
theorem c8_unreadable_file_message_witness :
    (FS.mk (fun q => if q = ["k"] then some ⟨List.replicate 32 7, false⟩ else none)
        (fun _ => false)).files ["k"] = some ⟨List.replicate 32 7, false⟩ ∧
    load_secret_key_from_file
        (FS.mk (fun q => if q = ["k"] then some ⟨List.replicate 32 7, false⟩ else none)
          (fun _ => false)) ["k"] =
      .error (.noSecretFile ["k"] .permissionDenied) :=
  ⟨by simp,
   (c8_unreadable_file_message _ ["k"] ⟨List.replicate 32 7, false⟩ (by simp) rfl).1⟩

/-- C2: the TLS material loader behaves by exactly four cases — both paths
absent: no material, no error; exactly one present: incomplete-configuration
error; both present with websocket disabled: no material, no error, warning
logged; both present with websocket enabled: reads both files (I/O error of
the failing read if either is unreadable) and returns the constructed
material (`tlsNew` abstracting `tls::Config::new`). -/
theorem c2_tls_loader_cases :
    (∀ (tlsNew : List Nat → List (List Nat) → Except Unit TlsConfig) (fs : FS)
        (web : Bool),
      (tls_config_from_params tlsNew fs none none web).result = .ok none) ∧
    (∀ (tlsNew : List Nat → List (List Nat) → Except Unit TlsConfig) (fs : FS)
        (p : Path) (web : Bool),
      (tls_config_from_params tlsNew fs (some p) none web).result =
        .error .incompleteTlsConfig) ∧
    (∀ (tlsNew : List Nat → List (List Nat) → Except Unit TlsConfig) (fs : FS)
        (c : Path) (web : Bool),
      (tls_config_from_params tlsNew fs none (some c) web).result =
        .error .incompleteTlsConfig) ∧
    (∀ (tlsNew : List Nat → List (List Nat) → Except Unit TlsConfig) (fs : FS)
        (p c : Path),
      (tls_config_from_params tlsNew fs (some p) (some c) false).result = .ok none ∧
      (tls_config_from_params tlsNew fs (some p) (some c) false).warned = true) ∧
    (∀ (tlsNew : List Nat → List (List Nat) → Except Unit TlsConfig) (fs : FS)
        (p c : Path) (e : IoErr), fsRead fs p = .error e →
      (tls_config_from_params tlsNew fs (some p) (some c) true).result =
        .error (.io e)) ∧
    (∀ (tlsNew : List Nat → List (List Nat) → Except Unit TlsConfig) (fs : FS)
        (p c : Path) (pkBytes : List Nat) (e : IoErr),
      fsRead fs p = .ok pkBytes → fsRead fs c = .error e →
      (tls_config_from_params tlsNew fs (some p) (some c) true).result =
        .error (.io e)) ∧
    (∀ (tlsNew : List Nat → List (List Nat) → Except Unit TlsConfig) (fs : FS)
        (p c : Path) (pkBytes certBytes : List Nat),
      fsRead fs p = .ok pkBytes → fsRead fs c = .ok certBytes →
      (tls_config_from_params tlsNew fs (some p) (some c) true).result =
        match tlsNew pkBytes [certBytes] with
        | .ok cfg => .ok (some cfg)
        | .error _ => .error .configNew) := by
  refine ⟨fun _ _ _ => rfl, fun _ _ _ _ => rfl, fun _ _ _ _ => rfl,
    fun _ _ _ _ => ⟨rfl, rfl⟩, ?_, ?_, ?_⟩
  · intro tlsNew fs p c e hp
    unfold tls_config_from_params
    simp [hp]
  · intro tlsNew fs p c pkBytes e hp hc
    unfold tls_config_from_params
    simp [hp, hc]
  · intro tlsNew fs p c pkBytes certBytes hp hc
    unfold tls_config_from_params
    simp only [hp, hc, Bool.not_true, Bool.false_eq_true, if_false]
    cases tlsNew pkBytes [certBytes] with
    | error e => rfl
    | ok cfg => rfl

/-- C2 witness: both read-failure cases and the success case on a concrete
filesystem (key at the first path, certificate at the second, one unreadable
variant each), with a constructor that packs the bytes as given. -/
theorem c2_tls_loader_cases_witness :
    (fsRead (FS.mk (fun q => if q = ["c"] then some ⟨[2], true⟩ else none)
        (fun _ => false)) ["p"] = .error .notFound ∧
      (tls_config_from_params (fun pk certs => .ok ⟨pk, certs⟩)
        (FS.mk (fun q => if q = ["c"] then some ⟨[2], true⟩ else none)
          (fun _ => false)) (some ["p"]) (some ["c"]) true).result =
        .error (.io .notFound)) ∧
    (fsRead (FS.mk (fun q => if q = ["p"] then some ⟨[1], true⟩ else none)
        (fun _ => false)) ["p"] = .ok [1] ∧
      fsRead (FS.mk (fun q => if q = ["p"] then some ⟨[1], true⟩ else none)
        (fun _ => false)) ["c"] = .error .notFound ∧
      (tls_config_from_params (fun pk certs => .ok ⟨pk, certs⟩)
        (FS.mk (fun q => if q = ["p"] then some ⟨[1], true⟩ else none)
          (fun _ => false)) (some ["p"]) (some ["c"]) true).result =
        .error (.io .notFound)) ∧
    (fsRead (FS.mk (fun q => if q = ["p"] then some ⟨[1], true⟩
          else if q = ["c"] then some ⟨[2], true⟩ else none)
        (fun _ => false)) ["p"] = .ok [1] ∧
      fsRead (FS.mk (fun q => if q = ["p"] then some ⟨[1], true⟩
          else if q = ["c"] then some ⟨[2], true⟩ else none)
        (fun _ => false)) ["c"] = .ok [2] ∧
      (tls_config_from_params (fun pk certs => .ok ⟨pk, certs⟩)
        (FS.mk (fun q => if q = ["p"] then some ⟨[1], true⟩
            else if q = ["c"] then some ⟨[2], true⟩ else none)
          (fun _ => false)) (some ["p"]) (some ["c"]) true).result =
        .ok (some ⟨[1], [[2]]⟩)) :=
  ⟨⟨by simp [fsRead], c2_tls_loader_cases.2.2.2.2.1 _ _ ["p"] ["c"] .notFound
      (by simp [fsRead])⟩,
   ⟨by simp [fsRead], by simp [fsRead],
    c2_tls_loader_cases.2.2.2.2.2.1 _ _ ["p"] ["c"] [1] .notFound
      (by simp [fsRead]) (by simp [fsRead])⟩,
   ⟨by simp [fsRead], by simp [fsRead],
    c2_tls_loader_cases.2.2.2.2.2.2 _ _ ["p"] ["c"] [1] [2]
      (by simp [fsRead]) (by simp [fsRead])⟩⟩

/-- C9: the TLS loader performs no filesystem reads unless both paths are
present and websocket is enabled — in the both-absent, one-present, and
websocket-disabled cases its entire output is independent of the filesystem
and its read trace is empty, so unreadable or missing TLS files cannot cause
an error there. -/
theorem c9_tls_loader_no_reads :
    (∀ (tlsNew : List Nat → List (List Nat) → Except Unit TlsConfig) (fs fs' : FS)
        (web : Bool),
      tls_config_from_params tlsNew fs none none web =
        tls_config_from_params tlsNew fs' none none web ∧
      (tls_config_from_params tlsNew fs none none web).reads = []) ∧
    (∀ (tlsNew : List Nat → List (List Nat) → Except Unit TlsConfig) (fs fs' : FS)
        (p : Path) (web : Bool),
      tls_config_from_params tlsNew fs (some p) none web =
        tls_config_from_params tlsNew fs' (some p) none web ∧
      (tls_config_from_params tlsNew fs (some p) none web).reads = []) ∧
    (∀ (tlsNew : List Nat → List (List Nat) → Except Unit TlsConfig) (fs fs' : FS)
        (c : Path) (web : Bool),
      tls_config_from_params tlsNew fs none (some c) web =
        tls_config_from_params tlsNew fs' none (some c) web ∧
      (tls_config_from_params tlsNew fs none (some c) web).reads = []) ∧
    (∀ (tlsNew : List Nat → List (List Nat) → Except Unit TlsConfig) (fs fs' : FS)
        (p c : Path),
      tls_config_from_params tlsNew fs (some p) (some c) false =
        tls_config_from_params tlsNew fs' (some p) (some c) false ∧
      (tls_config_from_params tlsNew fs (some p) (some c) false).reads = []) :=
  ⟨fun _ _ _ _ => ⟨rfl, rfl⟩, fun _ _ _ _ _ => ⟨rfl, rfl⟩,
   fun _ _ _ _ _ => ⟨rfl, rfl⟩, fun _ _ _ _ _ => ⟨rfl, rfl⟩⟩

/-- C10: when both the JSON flag and the no-timestamp flag are set, the JSON
format is installed and timestamps are retained (the `without_time` branch is
unreachable); the no-timestamp flag takes effect exactly when the JSON flag
is not set. -/
theorem c10_json_ignores_no_timestamp (level : Level) (isTerminal : Bool)
    (no_timestamp : Bool) (h : level ≠ .off) :
    (∃ cfg, init_tracing level isTerminal true no_timestamp = some cfg ∧
      cfg.json = true ∧ cfg.withTime = true) ∧
    (∃ cfg, init_tracing level isTerminal false no_timestamp = some cfg ∧
      cfg.json = false ∧ cfg.withTime = !no_timestamp) := by
  unfold init_tracing
  cases no_timestamp with
  | false => simp [h]
  | true => simp [h]

/-- C10 witness: INFO level, terminal attached, both flags set. -/
theorem c10_json_ignores_no_timestamp_witness :
    Level.info ≠ Level.off ∧
    (∃ cfg, init_tracing .info true true true = some cfg ∧
      cfg.json = true ∧ cfg.withTime = true) :=
  ⟨by decide, (c10_json_ignores_no_timestamp .info true true (by decide)).1⟩

/-- C6: every registration-expired event is logged with the expired peer id,
the namespace, the TTL, and the address list joined by commas; in particular
the synthetic booking event renders its single address unchanged. -/
theorem c6_registration_expired_log :
    (∀ registration : Registration,
      handleSwarmEvent (.behaviour (.rendezvous (.registrationExpired registration))) =
        some (.registrationExpired registration.record.peerId registration.nspace
          (addressesDisplay registration.record.addresses) registration.ttl)) ∧
    (∀ peer : PeerId,
      handleSwarmEvent (.behaviour (.rendezvous (.registrationExpired
          ⟨"booking", ⟨peer, ["/ip4/1.2.3.4/tcp/9000"]⟩, 60⟩))) =
        some (.registrationExpired peer "booking" "/ip4/1.2.3.4/tcp/9000" 60)) :=
  ⟨fun _ => rfl, fun _ => rfl⟩

/-- C1: the transport returned by the builder applies, on top of the raw
layer, exactly version negotiation (V1), the Noise XX handshake bound to the
identity keypair, multiplexer selection with Yamux preferred and Mplex as
fallback chosen by mutual negotiation, and an outermost 20-second timeout
whose expiry aborts the attempt with a timeout error. Isolation to the single
attempt is inherent in the semantics: `runUpgrade` is a function of one
attempt only. -/
theorem c1_upgrade_chain (base : TransportDesc) (identity : Keypair)
    (t : TransportDesc) (h : authenticate_and_multiplex base identity = .ok t) :
    upgradeLayers t = upgradeLayers base ++
      [.versionNeg .v1, .auth (.noiseXX identity), .mux .yamux .mplex,
        .timeoutL 20, .mapOut] ∧
    baseOf t = baseOf base ∧
    (∀ r : RemoteAttempt, 20 < r.upgradeSeconds →
      runUpgrade r t = .error .timedOut) ∧
    (∀ (r : RemoteAttempt) (p : Nat), runUpgrade r base = .ok .raw →
      r.upgradeSeconds ≤ 20 → r.supportsV1 = true → r.noisePeer = some p →
      runUpgrade r t =
        match negotiateMuxer .yamux .mplex r.muxers with
        | some m => .ok (.upgraded p m)
        | none => .error .noCommonMuxer) ∧
    (∀ ms : List Muxer, Muxer.yamux ∈ ms →
      negotiateMuxer .yamux .mplex ms = some .yamux) ∧
    (∀ ms : List Muxer, Muxer.yamux ∉ ms → Muxer.mplex ∈ ms →
      negotiateMuxer .yamux .mplex ms = some .mplex) := by
  injection h with ht
  subst ht
  refine ⟨?_, rfl, ?_, ?_, ?_, ?_⟩
  · simp [upgradeLayers]
  · intro r hr
    simp [runUpgrade, hr]
  · intro r p hraw hle hv1 hnp
    have hnotlt : ¬ 20 < r.upgradeSeconds := Nat.not_lt.2 hle
    simp only [runUpgrade, hnotlt, if_false, hraw, hv1, hnp, if_true]
  · intro ms h1
    simp [negotiateMuxer, h1]
  · intro ms h1 h2
    simp [negotiateMuxer, h1, h2]

/-- C1 witness: the concrete chain over TCP-with-DNS, one attempt that takes
21 seconds and times out, one attempt at 5 seconds by a remote that only
speaks Mplex and gets it as the fallback, and the preference for Yamux when
both sides offer it. -/
theorem c1_upgrade_chain_witness :
    authenticate_and_multiplex (.dns (.tcp true)) (List.replicate 32 3) =
      .ok (.mapPeerMuxer (.timeoutSecs 20 (.multiplex .yamux .mplex
        (.authenticate (.noiseXX (List.replicate 32 3))
          (.upgradeV .v1 (.dns (.tcp true))))))) ∧
    runUpgrade (RemoteAttempt.mk true (some 7) [.mplex] 21)
      (.mapPeerMuxer (.timeoutSecs 20 (.multiplex .yamux .mplex
        (.authenticate (.noiseXX (List.replicate 32 3))
          (.upgradeV .v1 (.dns (.tcp true))))))) = .error .timedOut ∧
    runUpgrade (RemoteAttempt.mk true (some 7) [.mplex] 5)
      (.mapPeerMuxer (.timeoutSecs 20 (.multiplex .yamux .mplex
        (.authenticate (.noiseXX (List.replicate 32 3))
          (.upgradeV .v1 (.dns (.tcp true))))))) = .ok (.upgraded 7 .mplex) ∧
    negotiateMuxer .yamux .mplex [.yamux, .mplex] = some .yamux :=
  ⟨rfl,
   (c1_upgrade_chain (.dns (.tcp true)) (List.replicate 32 3) _ rfl).2.2.1
     (RemoteAttempt.mk true (some 7) [.mplex] 21) (by decide),
   (c1_upgrade_chain (.dns (.tcp true)) (List.replicate 32 3) _ rfl).2.2.2.1
     (RemoteAttempt.mk true (some 7) [.mplex] 5) 7 rfl (by decide) rfl rfl,
   (c1_upgrade_chain (.dns (.tcp true)) (List.replicate 32 3) _ rfl).2.2.2.2.1
     [.yamux, .mplex] (by simp)⟩

/-- C5: with websocket enabled the built transport's base combines the
TCP-with-DNS layer and the WebSocket layer as alternatives, the WebSocket
layer carrying the TLS material exactly when it is present, under the same
upgrade chain; with websocket disabled the base is the TCP-with-DNS layer
alone. -/
theorem c5_transport_composition (identity : Keypair) (tls : Option TlsConfig) :
    baseOf (create_transport identity true tls) =
      .orTransport (.dns (.tcp true)) (.ws (.dns (.tcp true)) tls) ∧
    upgradeLayers (create_transport identity true tls) =
      [.versionNeg .v1, .auth (.noiseXX identity), .mux .yamux .mplex,
        .timeoutL 20, .mapOut] ∧
    baseOf (create_transport identity false tls) = .dns (.tcp true) ∧
    upgradeLayers (create_transport identity false tls) =
      [.versionNeg .v1, .auth (.noiseXX identity), .mux .yamux .mplex,
        .timeoutL 20, .mapOut] := by
  cases tls with
  | none => exact ⟨rfl, rfl, rfl, rfl⟩
  | some cfg => exact ⟨rfl, rfl, rfl, rfl⟩

end RendezvousServer
